import Mathlib

/-!
# k8s-pv-dashboard: aggregation and presentation

A shallow embedding of `main.go`.  The program has two parts:

* `loadK8sData` lists PersistentVolumes, namespaces, the PersistentVolumeClaims of
  every namespace and, for every claim, the pods of the namespace of the claim.  It
  builds two flat record lists and aborts the process (`log.Fatalf`) on some
  listing errors.
* `homeHandler` re-parses the page template on every request and renders the
  captured snapshot into the response.

Everything outside the repository (the cluster API behind client-go, the
quantity and time formatters, `html/template`, the `net/http` response writer)
is an explicit parameter or a small model of its documented behaviour.
-/

set_option linter.unusedVariables false

namespace K8sPvDashboard

/-! ## Cluster objects: the fields of the API types that the program reads -/

/-- Go `map[string]string`. -/
abbrev LabelSet := List (String × String)

/-- The part of `metav1.ObjectMeta` that is read. -/
structure ObjectMeta (Time : Type) where
  Name : String
  Namespace : String
  UID : String
  Labels : LabelSet
  CreationTimestamp : Time
deriving DecidableEq

/-- Go `v1.PersistentVolumeSpec`: `Capacity` is a `map[ResourceName]Quantity`. -/
structure PersistentVolumeSpec (Quantity : Type) where
  Capacity : List (String × Quantity)
deriving DecidableEq

structure PersistentVolumeStatus where
  Phase : String
deriving DecidableEq

structure PersistentVolume (Quantity Time : Type) extends ObjectMeta Time where
  Spec : PersistentVolumeSpec Quantity
  Status : PersistentVolumeStatus
deriving DecidableEq

structure PersistentVolumeClaimSpec where
  VolumeName : String
deriving DecidableEq

structure PersistentVolumeClaimStatus where
  Phase : String
deriving DecidableEq

structure PersistentVolumeClaim (Time : Type) extends ObjectMeta Time where
  Spec : PersistentVolumeClaimSpec
  Status : PersistentVolumeClaimStatus
deriving DecidableEq

/-- Go `v1.Namespace`; only `Name` is read. -/
structure Namespace (Time : Type) extends ObjectMeta Time
deriving DecidableEq

structure PodSpec where
  NodeName : String
deriving DecidableEq

structure Pod (Time : Type) extends ObjectMeta Time where
  Spec : PodSpec
deriving DecidableEq

/-! ## External library functions, taken as parameters -/

/-- The two formatters of the Kubernetes and Go libraries that `loadK8sData`
calls, and the Go zero value of a quantity (what indexing a map yields for an
absent key). -/
structure Lib (Quantity Time : Type) where
  zeroQuantity : Quantity
  /-- Method `resource.Quantity.String`. -/
  quantityString : Quantity → String
  /-- Method `time.Time.Format`, applied to a time and a layout. -/
  timeFormat : Time → String → String

/-- Go map indexing `m[key]`: the stored value, or the zero value. -/
def mapIndex {Quantity : Type} (zero : Quantity) (m : List (String × Quantity))
    (key : String) : Quantity :=
  match m.lookup key with
  | some q => q
  | none => zero

/-- What a client-go `List` call hands back: a list object and an error, two
independent components as in Go.  The typed clients built by
`kubernetes.NewForConfig` allocate the list object before sending the request
and return it together with the error (`result = &v1.NamespaceList{}; err =
... .Into(result); return`), so the pointer is never nil; `Items` are the items
of that object, which a request that was refused leaves empty.  The call
succeeded when `err = none`. -/
structure ListResult (α : Type) where
  Items : List α
  err : Option String
deriving DecidableEq

/-- A call that succeeded with the given items. -/
def ListResult.success {α : Type} (items : List α) : ListResult α :=
  ⟨items, none⟩

/-- A call that was refused: the error, and the list object left empty. -/
def ListResult.failure {α : Type} (err : String) : ListResult α :=
  ⟨[], some err⟩

/-- The cluster as seen through the clientset: the response of each of the four
list requests the program issues, as a function of the arguments of the request. -/
structure Clientset (Quantity Time : Type) where
  /-- Call `CoreV1().PersistentVolumes().List`. -/
  listPersistentVolumes : ListResult (PersistentVolume Quantity Time)
  /-- Call `CoreV1().Namespaces().List`. -/
  listNamespaces : ListResult (Namespace Time)
  /-- Call `CoreV1().PersistentVolumeClaims(ns).List`. -/
  listPersistentVolumeClaims : String → ListResult (PersistentVolumeClaim Time)
  /-- Call `CoreV1().Pods(ns).List` with the given field selector. -/
  listPods : String → String → ListResult (Pod Time)

/-- Go `rest.Config`; the program only passes it on. -/
structure RestConfig where
  Host : String
deriving DecidableEq

/-- The process environment of `loadK8sData`. -/
structure Env (Quantity Time : Type) where
  /-- Value of `os.Getenv("KUBECONFIG")`, empty when unset. -/
  KUBECONFIG : String
  /-- Function `clientcmd.BuildConfigFromFlags(masterUrl, kubeconfigPath)`. -/
  buildConfigFromFlags : String → String → Except String RestConfig
  /-- Function `kubernetes.NewForConfig`. -/
  newForConfig : RestConfig → Except String (Clientset Quantity Time)

/-! ## The data types of the program -/

structure PV where
  Name : String
  Size : String
  CreationTime : String
  UUID : String
  Labels : LabelSet
  Status : String
deriving DecidableEq

structure PVC where
  Name : String
  Namespace : String
  CreationTime : String
  UUID : String
  Labels : LabelSet
  Status : String
  PVUUID : String
deriving DecidableEq

structure DashboardData where
  PVs : List PV
  PVCs : List PVC
deriving DecidableEq

/-! ## Process-level outcomes -/

/-- How a piece of the program ends. -/
inductive Outcome (α : Type) where
  /-- Normal return. -/
  | returned (val : α)
  /-- Call of `log.Fatalf`: the message is logged and the process exits with status 1. -/
  | fatal (msg : String)
deriving DecidableEq

/-- A run: what was printed on standard output, and how the run ended. -/
structure Run (α : Type) where
  stdout : List String
  outcome : Outcome α
deriving DecidableEq

/-! ## `loadK8sData` -/

section Aggregator

variable {Quantity Time : Type}

/-- The loop `for _, pv := range pvs.Items`, with `pvList` as accumulator. -/
def pvLoop (lib : Lib Quantity Time) :
    List (PersistentVolume Quantity Time) → List PV → List PV
  | [], pvList => pvList
  | pv :: rest, pvList =>
    let quantity := mapIndex lib.zeroQuantity pv.Spec.Capacity "storage"
    pvLoop lib rest (pvList ++ [{
      Name := pv.Name
      Size := lib.quantityString quantity
      CreationTime := lib.timeFormat pv.CreationTimestamp "2006-01-02/15:04:05"
      UUID := pv.UID
      Labels := pv.Labels
      Status := pv.Status.Phase }])

/-- The loop `for _, pod := range pods.Items`: one line on standard output per pod. -/
def podLoop : List (Pod Time) → List String → List String
  | [], out => out
  | pod :: rest, out =>
    podLoop rest
      (out ++ ["Pod " ++ pod.Name ++ " is running on Node " ++ pod.Spec.NodeName ++ "\n"])

/-- The loop `for _, pvc := range pvcs.Items`, with `pvcList` and standard
output as state. -/
def pvcLoop (lib : Lib Quantity Time) (clientset : Clientset Quantity Time) :
    List (PersistentVolumeClaim Time) → List PVC → List String → Run (List PVC)
  | [], pvcList, out => ⟨out, .returned pvcList⟩
  | pvc :: rest, pvcList, out =>
    let pvcList := pvcList ++ [{
      Name := pvc.Name
      Namespace := pvc.Namespace
      CreationTime := lib.timeFormat pvc.CreationTimestamp "2006-01-02/15:04:05"
      UUID := pvc.UID
      Labels := pvc.Labels
      Status := pvc.Status.Phase
      PVUUID := pvc.Spec.VolumeName }]
    let pods := clientset.listPods pvc.Namespace "kind=pod"
    match pods.err with
    | some err => ⟨out, .fatal ("Fehler beim Abrufen von Pods für PVC: " ++ err)⟩
    | none => pvcLoop lib clientset rest pvcList (podLoop pods.Items out)

/-- The loop `for _, namespace := range namespaces.Items`. -/
def namespaceLoop (lib : Lib Quantity Time) (clientset : Clientset Quantity Time) :
    List (Namespace Time) → List PVC → List String → Run (List PVC)
  | [], pvcList, out => ⟨out, .returned pvcList⟩
  | ns :: rest, pvcList, out =>
    let pvcs := clientset.listPersistentVolumeClaims ns.Name
    match pvcs.err with
    | some err => ⟨out, .fatal ("Error fetching PersistentVolumes: " ++ err)⟩
    | none =>
      match pvcLoop lib clientset pvcs.Items pvcList out with
      | ⟨out, .returned pvcList⟩ => namespaceLoop lib clientset rest pvcList out
      | ⟨out, .fatal msg⟩ => ⟨out, .fatal msg⟩

/-- The first lines of `loadK8sData`: the kubeconfig path, from the environment
or the built-in default. -/
def kubeconfigPath (env : Env Quantity Time) : String :=
  let kubeconfig := env.KUBECONFIG
  if kubeconfig = "" then "/mnt/jetbrains/work/k8s-pv-dashboard/k8s/.kubeconfig"
  else kubeconfig

/-- Function `loadK8sData`.  Its Go result is `([]PV, []PVC, error)`; the error
component is the constant `nil`. -/
def loadK8sData (lib : Lib Quantity Time) (env : Env Quantity Time) :
    Run (List PV × List PVC × Option String) :=
  let kubeconfig := kubeconfigPath env
  match env.buildConfigFromFlags "" kubeconfig with
  | .error err => ⟨[], .fatal ("Error loading kubeconfig: " ++ err)⟩
  | .ok config =>
    match env.newForConfig config with
    | .error err => ⟨[], .fatal ("Error creating Kubernetes clientset: " ++ err)⟩
    | .ok clientset =>
      let pvs := clientset.listPersistentVolumes
      match pvs.err with
      | some err => ⟨[], .fatal ("Error fetching PersistentVolumes: " ++ err)⟩
      | none =>
        let out := ["PersistentVolumes in the cluster:\n"]
        let pvList := pvLoop lib pvs.Items []
        -- the error of the namespace listing is assigned to the blank identifier
        let namespaces := clientset.listNamespaces
        match namespaceLoop lib clientset namespaces.Items [] out with
        | ⟨out, .returned pvcList⟩ => ⟨out, .returned (pvList, pvcList, none)⟩
        | ⟨out, .fatal msg⟩ => ⟨out, .fatal msg⟩

/-! ### Vocabulary for statements about `loadK8sData` -/

/-- The Volume record the specification describes for one listed volume: a
field-by-field transcription. -/
def volumeRecord (lib : Lib Quantity Time) (pv : PersistentVolume Quantity Time) : PV :=
  { Name := pv.Name
    Size := lib.quantityString (mapIndex lib.zeroQuantity pv.Spec.Capacity "storage")
    CreationTime := lib.timeFormat pv.CreationTimestamp "2006-01-02/15:04:05"
    UUID := pv.UID
    Labels := pv.Labels
    Status := pv.Status.Phase }

/-- The Claim record the specification describes for one listed claim. -/
def claimRecord (lib : Lib Quantity Time) (pvc : PersistentVolumeClaim Time) : PVC :=
  { Name := pvc.Name
    Namespace := pvc.Namespace
    CreationTime := lib.timeFormat pvc.CreationTimestamp "2006-01-02/15:04:05"
    UUID := pvc.UID
    Labels := pvc.Labels
    Status := pvc.Status.Phase
    PVUUID := pvc.Spec.VolumeName }

/-- The claims the listing of one namespace returns. -/
def claimsOf (clientset : Clientset Quantity Time) (ns : Namespace Time) :
    List (PersistentVolumeClaim Time) :=
  (clientset.listPersistentVolumeClaims ns.Name).Items

/-- The Claim collection of the specification: for each enumerated namespace
in turn, the claim records of its listing, in listing order. -/
def claimRecords (lib : Lib Quantity Time) (clientset : Clientset Quantity Time)
    (namespaces : List (Namespace Time)) : List PVC :=
  namespaces.flatMap (fun ns => (claimsOf clientset ns).map (claimRecord lib))

/-- The kubeconfig loads and the clientset `clientset` is created from it. -/
def Connected (env : Env Quantity Time) (clientset : Clientset Quantity Time) : Prop :=
  ∃ config, env.buildConfigFromFlags "" (kubeconfigPath env) = .ok config ∧
    env.newForConfig config = .ok clientset

/-- The pod listing issued for each of the given claims succeeds. -/
def PodListingsSucceed (clientset : Clientset Quantity Time)
    (claims : List (PersistentVolumeClaim Time)) : Prop :=
  ∀ pvc ∈ claims, (clientset.listPods pvc.Namespace "kind=pod").err = none

/-- For each of the given namespaces the claim listing succeeds, and so does
the pod listing issued for each of its claims. -/
def ClaimPhaseSucceeds (clientset : Clientset Quantity Time)
    (namespaces : List (Namespace Time)) : Prop :=
  ∀ ns ∈ namespaces, (clientset.listPersistentVolumeClaims ns.Name).err = none ∧
    PodListingsSucceed clientset (claimsOf clientset ns)

/-- Every listing the run issues succeeds. -/
def AllListingsSucceed (clientset : Clientset Quantity Time) : Prop :=
  clientset.listPersistentVolumes.err = none ∧
  clientset.listNamespaces.err = none ∧
  ClaimPhaseSucceeds clientset clientset.listNamespaces.Items

/-- The conditions under which the aggregation run is successful, that is,
returns a snapshot (`loadK8sData_returned_iff`): as `AllListingsSucceed`, but
with nothing required of the namespace listing, whose error the code ignores. -/
def RunSucceeds (clientset : Clientset Quantity Time) : Prop :=
  clientset.listPersistentVolumes.err = none ∧
  ClaimPhaseSucceeds clientset clientset.listNamespaces.Items

/-- The volume list `pvList` transcribes the listed `items` one by one, in
order: same length, and at every index the six fields come from the item. -/
def VolumesTranscribed (lib : Lib Quantity Time)
    (items : List (PersistentVolume Quantity Time)) (pvList : List PV) : Prop :=
  pvList.length = items.length ∧
  ∀ (i : Nat) (hi : i < pvList.length) (hj : i < items.length),
    (pvList.get ⟨i, hi⟩).Name = (items.get ⟨i, hj⟩).Name ∧
    (pvList.get ⟨i, hi⟩).UUID = (items.get ⟨i, hj⟩).UID ∧
    (pvList.get ⟨i, hi⟩).Labels = (items.get ⟨i, hj⟩).Labels ∧
    (pvList.get ⟨i, hi⟩).Status = (items.get ⟨i, hj⟩).Status.Phase ∧
    (pvList.get ⟨i, hi⟩).Size
      = lib.quantityString (mapIndex lib.zeroQuantity (items.get ⟨i, hj⟩).Spec.Capacity "storage") ∧
    (pvList.get ⟨i, hi⟩).CreationTime
      = lib.timeFormat (items.get ⟨i, hj⟩).CreationTimestamp "2006-01-02/15:04:05"

/-- The API contract of a namespaced listing: every claim returned for a
given namespace carries that namespace in its metadata. -/
def NamespaceScoped (clientset : Clientset Quantity Time) : Prop :=
  ∀ ns ∈ clientset.listNamespaces.Items, ∀ pvc ∈ claimsOf clientset ns,
    pvc.Namespace = ns.Name

end Aggregator

/-! ## The `net/http` server side of a response

Only the status line and the body are tracked.  The documented behaviour of
`http.ResponseWriter` is modelled: the first `Write` sends the header with
status 200 if none was sent; once the header is sent a further `WriteHeader`
changes nothing; and the server sends no body in answer to a `HEAD` request
(the writes succeed and are dropped).  The only status codes the program uses
are 200 and 500, both of which allow a body. -/

/-- An incoming request. -/
structure Request where
  Method : String
  Path : String
  RawQuery : String
  Header : List (String × String)
  Body : String
deriving DecidableEq

/-- The writer the server builds for one request: the request it answers (the
field `req` of the `response` of net/http), whether the header was written,
the status, and the body sent so far. -/
structure ResponseWriter where
  req : Request
  wroteHeader : Bool
  status : Nat
  body : String
deriving DecidableEq

/-- The writer the server hands to a handler for the request `r`. -/
def ResponseWriter.fresh (r : Request) : ResponseWriter := ⟨r, false, 0, ""⟩

def ResponseWriter.WriteHeader (w : ResponseWriter) (code : Nat) : ResponseWriter :=
  if w.wroteHeader then w else { w with wroteHeader := true, status := code }

def ResponseWriter.Write (w : ResponseWriter) (data : String) : ResponseWriter :=
  let w := if w.wroteHeader then w else w.WriteHeader 200
  if w.req.Method = "HEAD" then w else { w with body := w.body ++ data }

/-- Function `http.Error`: sets the plain-text headers, calls `WriteHeader(code)`
and prints the message followed by a newline (`fmt.Fprintln`). -/
def httpError (w : ResponseWriter) (error : String) (code : Nat) : ResponseWriter :=
  (w.WriteHeader code).Write (error ++ "\n")

/-- What the client receives. -/
structure Response where
  status : Nat
  body : String
deriving DecidableEq

/-- The server completes the response when the handler returns; a header that
was never written is sent with status 200. -/
def finishRequest (w : ResponseWriter) : Response :=
  let w := if w.wroteHeader then w else w.WriteHeader 200
  ⟨w.status, w.body⟩

/-! ## `html/template` -/

/-- The effect of executing a template: the successive `Write` calls it makes
on its writer, and the error it returns (execution stops at the first error,
after the output produced so far has been written). -/
structure ExecResult where
  written : List String
  err : Option String
deriving DecidableEq

/-- A parsed template, as the function from the data context to the effect of
`Execute`. -/
abbrev Template := DashboardData → ExecResult

/-- Method `Execute(w, data)`. -/
def Template.Execute (tmpl : Template) (w : ResponseWriter) (data : DashboardData) :
    ResponseWriter × Option String :=
  let r := tmpl data
  (r.written.foldl ResponseWriter.Write w, r.err)

/-! ## `homeHandler` and `main` -/

/-- Function `homeHandler(data)`, applied to a writer and a request.
`parseFiles` is `template.ParseFiles` on the disk contents at the time of the
request.  The result is the writer after the handler returned, and the lines it
logged. -/
def homeHandler (data : DashboardData) (parseFiles : String → Except String Template)
    (w : ResponseWriter) (r : Request) : ResponseWriter × List String :=
  match parseFiles "./templates/index.html" with
  | .error err =>
    (httpError w "Error loading template" 500, ["Template error: " ++ err ++ "\n"])
  | .ok tmpl =>
    match tmpl.Execute w data with
    | (w, some err) =>
      (httpError w "Error rendering the template" 500, ["Render error: " ++ err ++ "\n"])
    | (w, none) => (w, [])

/-- A request together with the state of the template file when it arrives. -/
structure Arrival where
  parseFiles : String → Except String Template
  request : Request

/-- One request dispatched to the handler: the server builds the writer for
that request, calls the handler with the writer and the request, and completes
the response when the handler returns. -/
def serveRequest (handler : (String → Except String Template) → ResponseWriter → Request →
    ResponseWriter × List String) (a : Arrival) : Response :=
  finishRequest (handler a.parseFiles (ResponseWriter.fresh a.request) a.request).1

/-- The listener started by `http.ListenAndServe`, on a finite sequence of
requests that the router dispatches to the handler registered for `/`.
Requests the server or the router answers on its own (a malformed request, a
path that is not in canonical form and is redirected) never reach the handler
and are not part of the sequence. -/
def serve (handler : (String → Except String Template) → ResponseWriter → Request →
    ResponseWriter × List String) : List Arrival → List Response
  | [] => []
  | a :: rest => serveRequest handler a :: serve handler rest

/-- The response the specification describes for a request that is not a
`HEAD`: the load failure message, the rendered page, or the outcome of a render
failure, which depends on whether output had begun. -/
def pageResponse (data : DashboardData) (parseFiles : String → Except String Template) :
    Response :=
  match parseFiles "./templates/index.html" with
  | .error _ => ⟨500, "Error loading template\n"⟩
  | .ok tmpl =>
    match (tmpl data).err with
    | none => ⟨200, String.join (tmpl data).written⟩
    | some _ =>
      if (tmpl data).written = [] then ⟨500, "Error rendering the template\n"⟩
      else ⟨200, String.join (tmpl data).written ++ "Error rendering the template\n"⟩

/-- The body the server sends for the request `r` when the handler wrote
`body`: nothing in answer to a `HEAD`. -/
def bodyFor (r : Request) (body : String) : String :=
  if r.Method = "HEAD" then "" else body

/-- Function `main`.  `listen` is the error with which `http.ListenAndServe`
fails to start, if any; otherwise the listener answers `traffic`, and
`returned` carries the responses. -/
def main {Quantity Time : Type} (lib : Lib Quantity Time) (env : Env Quantity Time)
    (listen : Option String) (traffic : List Arrival) : Run (List Response) :=
  match loadK8sData lib env with
  | ⟨out, .fatal msg⟩ => ⟨out, .fatal msg⟩
  | ⟨out, .returned (pvs, pvcs, err)⟩ =>
    let data : DashboardData := { PVs := pvs, PVCs := pvcs }
    match err with
    | some err => ⟨out, .fatal ("Fehler beim Laden der PV-Daten: " ++ err)⟩
    | none =>
      let out := out ++ ["Persistent Volumes found in cluster : " ++ toString pvs.length ++ " \n"]
      match listen with
      | some err => ⟨out, .fatal err⟩
      | none => ⟨out, .returned (serve (homeHandler data) traffic)⟩

/-! ## Sample library, clusters, templates and requests

Concrete inputs on which the embedding is evaluated. -/

/-- A quantity as a number and a unit suffix. -/
structure SampleQuantity where
  value : Nat
  suffix : String
deriving DecidableEq

/-- A civil date and time. -/
structure SampleTime where
  year : Nat
  month : Nat
  day : Nat
  hour : Nat
  minute : Nat
  second : Nat
deriving DecidableEq

def pad2 (n : Nat) : String :=
  if n < 10 then "0" ++ toString n else toString n

def sampleLib : Lib SampleQuantity SampleTime where
  zeroQuantity := ⟨0, ""⟩
  quantityString q := toString q.value ++ q.suffix
  timeFormat t layout :=
    if layout = "2006-01-02/15:04:05" then
      toString t.year ++ "-" ++ pad2 t.month ++ "-" ++ pad2 t.day ++ "/" ++
        pad2 t.hour ++ ":" ++ pad2 t.minute ++ ":" ++ pad2 t.second
    else layout

def sampleMeta (name ns uid : String) : ObjectMeta SampleTime :=
  { Name := name, Namespace := ns, UID := uid, Labels := [("app", "db")],
    CreationTimestamp := ⟨2024, 5, 6, 7, 8, 9⟩ }

def sampleVolume (name uid : String) (gi : Nat) (phase : String) :
    PersistentVolume SampleQuantity SampleTime :=
  { toObjectMeta := sampleMeta name "" uid
    Spec := ⟨[("storage", ⟨gi, "Gi"⟩)]⟩
    Status := ⟨phase⟩ }

def sampleClaim (name ns uid volumeName phase : String) : PersistentVolumeClaim SampleTime :=
  { toObjectMeta := sampleMeta name ns uid
    Spec := ⟨volumeName⟩
    Status := ⟨phase⟩ }

def sampleNamespace (name : String) : Namespace SampleTime :=
  { toObjectMeta := sampleMeta name "" ("uid-" ++ name) }

def samplePod (name ns node : String) : Pod SampleTime :=
  { toObjectMeta := sampleMeta name ns ("uid-" ++ name)
    Spec := ⟨node⟩ }

/-- An environment without `KUBECONFIG` in which the default kubeconfig loads
and leads to the given cluster. -/
def connectTo (clientset : Clientset SampleQuantity SampleTime) :
    Env SampleQuantity SampleTime :=
  { KUBECONFIG := ""
    buildConfigFromFlags := fun _ _ => .ok ⟨"https://cluster.local:6443"⟩
    newForConfig := fun _ => .ok clientset }

/-- The scenario of the specification: volumes `pv-a` (10Gi) and `pv-b` (5Gi),
one namespace `ns1` with one claim `claim-x` bound to `pv-a`. -/
def scenarioCluster : Clientset SampleQuantity SampleTime :=
  { listPersistentVolumes :=
      .success [sampleVolume "pv-a" "uid-a" 10 "Bound", sampleVolume "pv-b" "uid-b" 5 "Available"]
    listNamespaces := .success [sampleNamespace "ns1"]
    listPersistentVolumeClaims := fun ns =>
      if ns = "ns1" then .success [sampleClaim "claim-x" "ns1" "uid-x" "pv-a" "Bound"]
      else .success []
    listPods := fun ns _ =>
      if ns = "ns1" then .success [samplePod "web-0" "ns1" "node-1"] else .success [] }

/-- The scenario cluster, except that listing namespaces is refused. -/
def namespacesRefused : Clientset SampleQuantity SampleTime :=
  { scenarioCluster with listNamespaces := .failure "namespaces is forbidden" }

/-- The scenario cluster, except that listing pods is refused. -/
def podsRefused : Clientset SampleQuantity SampleTime :=
  { scenarioCluster with listPods := fun _ _ => .failure "pods is forbidden" }

/-- A cluster with a namespace but no claim, in which listing pods is refused. -/
def noClaimsPodsRefused : Clientset SampleQuantity SampleTime :=
  { scenarioCluster with
    listPersistentVolumeClaims := fun _ => .success []
    listPods := fun _ _ => .failure "pods is forbidden" }

/-- One volume `pv-a`; namespace `ns1` holds a claim bound to the absent volume
`pv-gone` and a claim that is not bound. -/
def danglingCluster : Clientset SampleQuantity SampleTime :=
  { listPersistentVolumes := .success [sampleVolume "pv-a" "uid-a" 10 "Available"]
    listNamespaces := .success [sampleNamespace "ns1"]
    listPersistentVolumeClaims := fun ns =>
      if ns = "ns1" then
        .success [sampleClaim "claim-y" "ns1" "uid-y" "pv-gone" "Lost",
                  sampleClaim "claim-z" "ns1" "uid-z" "" "Pending"]
      else .success []
    listPods := fun _ _ => .success [] }

/-- A page that prints a heading and then every volume and claim name. -/
def pageTemplate : Template := fun data =>
  ⟨["<h1>Volumes</h1>"] ++ data.PVs.map (fun pv => "<li>" ++ pv.Name ++ "</li>")
      ++ data.PVCs.map (fun pvc => "<li>" ++ pvc.Name ++ "</li>"), none⟩

/-- A page whose heading is followed by a reference to a field the data does
not have: the heading is written, then execution fails. -/
def headingThenMissingField : Template := fun _ =>
  ⟨["<h1>Volumes</h1>"], some "cannot evaluate field Missing in type main.DashboardData"⟩

/-- The disk with the given template at `./templates/index.html`. -/
def diskWith (tmpl : Template) : String → Except String Template := fun path =>
  if path = "./templates/index.html" then .ok tmpl
  else .error ("open " ++ path ++ ": no such file or directory")

/-- The disk after the template file was deleted. -/
def diskWithout : String → Except String Template := fun path =>
  .error ("open " ++ path ++ ": no such file or directory")

def sampleData : DashboardData :=
  { PVs := [⟨"pv-a", "10Gi", "2024-05-06/07:08:09", "uid-a", [], "Bound"⟩]
    PVCs := [⟨"claim-x", "ns1", "2024-05-06/07:08:09", "uid-x", [], "Bound", "pv-a"⟩] }

def getRoot : Request :=
  { Method := "GET", Path := "/", RawQuery := "", Header := [], Body := "" }

def headRoot : Request :=
  { Method := "HEAD", Path := "/", RawQuery := "", Header := [], Body := "" }

def postElsewhere : Request :=
  { Method := "POST", Path := "/volumes/delete", RawQuery := "name=pv-a",
    Header := [("Content-Type", "application/json")], Body := "[1]" }

/-! ## Lemmas on the loops of `loadK8sData` -/

section AggregatorLemmas

variable {Quantity Time : Type}

theorem pvLoop_eq (lib : Lib Quantity Time) (items : List (PersistentVolume Quantity Time))
    (acc : List PV) : pvLoop lib items acc = acc ++ items.map (volumeRecord lib) := by
  induction items generalizing acc with
  | nil => simp [pvLoop]
  | cons pv rest ih => simp [pvLoop, ih, volumeRecord]

theorem pvcLoop_returned (lib : Lib Quantity Time) (clientset : Clientset Quantity Time)
    (items : List (PersistentVolumeClaim Time)) (acc : List PVC) (out : List String)
    (h : PodListingsSucceed clientset items) :
    (pvcLoop lib clientset items acc out).outcome
      = .returned (acc ++ items.map (claimRecord lib)) := by
  induction items generalizing acc out with
  | nil => simp [pvcLoop]
  | cons pvc rest ih =>
    have herr := h pvc (List.mem_cons_self _ _)
    have htail : PodListingsSucceed clientset rest :=
      fun p hp => h p (List.mem_cons_of_mem _ hp)
    simp only [pvcLoop, herr]
    rw [ih _ _ htail]
    simp [claimRecord]

theorem pvcLoop_returned_inv (lib : Lib Quantity Time) (clientset : Clientset Quantity Time)
    (items : List (PersistentVolumeClaim Time)) (acc : List PVC) (out : List String)
    (val : List PVC) (h : (pvcLoop lib clientset items acc out).outcome = .returned val) :
    PodListingsSucceed clientset items := by
  induction items generalizing acc out with
  | nil => intro p hp; simp at hp
  | cons pvc rest ih =>
    simp only [pvcLoop] at h
    cases herr : (clientset.listPods pvc.Namespace "kind=pod").err with
    | some e => simp [herr] at h
    | none =>
      simp only [herr] at h
      intro p hp
      rcases List.mem_cons.1 hp with rfl | hp
      · exact herr
      · exact ih _ _ h p hp

theorem pvcLoop_podFatal (lib : Lib Quantity Time) (clientset : Clientset Quantity Time)
    (items : List (PersistentVolumeClaim Time)) (acc : List PVC) (out : List String)
    (hfail : ∃ pvc ∈ items, (clientset.listPods pvc.Namespace "kind=pod").err ≠ none) :
    ∃ e, (pvcLoop lib clientset items acc out).outcome
      = .fatal ("Fehler beim Abrufen von Pods für PVC: " ++ e) := by
  induction items generalizing acc out with
  | nil => obtain ⟨p, hp, _⟩ := hfail; simp at hp
  | cons pvc rest ih =>
    cases herr : (clientset.listPods pvc.Namespace "kind=pod").err with
    | some e => exact ⟨e, by simp [pvcLoop, herr]⟩
    | none =>
      have hrest : ∃ p ∈ rest, (clientset.listPods p.Namespace "kind=pod").err ≠ none := by
        obtain ⟨p, hp, hperr⟩ := hfail
        rcases List.mem_cons.1 hp with rfl | hp
        · exact absurd herr hperr
        · exact ⟨p, hp, hperr⟩
      obtain ⟨e, he⟩ := ih _ (podLoop (clientset.listPods pvc.Namespace "kind=pod").Items out)
        hrest
      exact ⟨e, by simp only [pvcLoop, herr]; exact he⟩

theorem namespaceLoop_returned (lib : Lib Quantity Time) (clientset : Clientset Quantity Time)
    (namespaces : List (Namespace Time)) (acc : List PVC) (out : List String)
    (h : ClaimPhaseSucceeds clientset namespaces) :
    (namespaceLoop lib clientset namespaces acc out).outcome
      = .returned (acc ++ claimRecords lib clientset namespaces) := by
  induction namespaces generalizing acc out with
  | nil => simp [namespaceLoop, claimRecords]
  | cons ns rest ih =>
    obtain ⟨herr, hpods⟩ := h ns (List.mem_cons_self _ _)
    have htail : ClaimPhaseSucceeds clientset rest :=
      fun n hn => h n (List.mem_cons_of_mem _ hn)
    have hinner := pvcLoop_returned lib clientset _ acc out hpods
    simp only [namespaceLoop, herr]
    simp only [claimsOf] at hinner
    generalize pvcLoop lib clientset (clientset.listPersistentVolumeClaims ns.Name).Items acc out
      = inner at hinner
    obtain ⟨out2, oc⟩ := inner
    simp only at hinner
    subst hinner
    simp only
    rw [ih _ _ htail]
    simp [claimRecords, List.flatMap_cons, claimsOf]

theorem namespaceLoop_returned_inv (lib : Lib Quantity Time)
    (clientset : Clientset Quantity Time) (namespaces : List (Namespace Time))
    (acc : List PVC) (out : List String) (val : List PVC)
    (h : (namespaceLoop lib clientset namespaces acc out).outcome = .returned val) :
    ClaimPhaseSucceeds clientset namespaces := by
  induction namespaces generalizing acc out with
  | nil => intro n hn; simp at hn
  | cons ns rest ih =>
    simp only [namespaceLoop] at h
    cases herr : (clientset.listPersistentVolumeClaims ns.Name).err with
    | some e => simp [herr] at h
    | none =>
      simp only [herr] at h
      generalize hinner : pvcLoop lib clientset
        (clientset.listPersistentVolumeClaims ns.Name).Items acc out = inner at h
      obtain ⟨out2, oc⟩ := inner
      cases oc with
      | returned l =>
        simp only at h
        have hpods := pvcLoop_returned_inv lib clientset _ acc out l (by rw [hinner])
        intro n hn
        rcases List.mem_cons.1 hn with rfl | hn
        · exact ⟨herr, hpods⟩
        · exact ih _ _ h n hn
      | fatal m => simp at h

theorem namespaceLoop_podFatal (lib : Lib Quantity Time) (clientset : Clientset Quantity Time)
    (namespaces : List (Namespace Time)) (acc : List PVC) (out : List String)
    (hclaims : ∀ ns ∈ namespaces, (clientset.listPersistentVolumeClaims ns.Name).err = none)
    (hfail : ∃ ns ∈ namespaces, ∃ pvc ∈ claimsOf clientset ns,
      (clientset.listPods pvc.Namespace "kind=pod").err ≠ none) :
    ∃ e, (namespaceLoop lib clientset namespaces acc out).outcome
      = .fatal ("Fehler beim Abrufen von Pods für PVC: " ++ e) := by
  induction namespaces generalizing acc out with
  | nil => obtain ⟨n, hn, _⟩ := hfail; simp at hn
  | cons ns rest ih =>
    have herr := hclaims ns (List.mem_cons_self _ _)
    simp only [namespaceLoop, herr]
    by_cases hhead : ∃ pvc ∈ claimsOf clientset ns,
        (clientset.listPods pvc.Namespace "kind=pod").err ≠ none
    · obtain ⟨e, he⟩ := pvcLoop_podFatal lib clientset _ acc out hhead
      refine ⟨e, ?_⟩
      simp only [claimsOf] at he
      generalize pvcLoop lib clientset (clientset.listPersistentVolumeClaims ns.Name).Items
        acc out = inner at he
      obtain ⟨out2, oc⟩ := inner
      simp only at he
      subst he
      rfl
    · have hpods : PodListingsSucceed clientset (claimsOf clientset ns) := by
        intro p hp
        by_contra hne
        exact hhead ⟨p, hp, hne⟩
      have hinner := pvcLoop_returned lib clientset _ acc out hpods
      have hrest : ∃ n ∈ rest, ∃ pvc ∈ claimsOf clientset n,
          (clientset.listPods pvc.Namespace "kind=pod").err ≠ none := by
        obtain ⟨n, hn, p, hp, hperr⟩ := hfail
        rcases List.mem_cons.1 hn with rfl | hn
        · exact absurd ⟨p, hp, hperr⟩ hhead
        · exact ⟨n, hn, p, hp, hperr⟩
      simp only [claimsOf] at hinner
      generalize pvcLoop lib clientset (clientset.listPersistentVolumeClaims ns.Name).Items
        acc out = inner at hinner
      obtain ⟨out2, oc⟩ := inner
      simp only at hinner
      subst hinner
      exact ih _ _ (fun n hn => hclaims n (List.mem_cons_of_mem _ hn)) hrest

theorem loadK8sData_returned (lib : Lib Quantity Time) (env : Env Quantity Time)
    (clientset : Clientset Quantity Time) (hconn : Connected env clientset)
    (hrun : RunSucceeds clientset) :
    (loadK8sData lib env).outcome
      = .returned (clientset.listPersistentVolumes.Items.map (volumeRecord lib),
          claimRecords lib clientset clientset.listNamespaces.Items, none) := by
  obtain ⟨config, hcfg, hcs⟩ := hconn
  obtain ⟨hpv, hphase⟩ := hrun
  have hloop := namespaceLoop_returned lib clientset clientset.listNamespaces.Items []
    ["PersistentVolumes in the cluster:\n"] hphase
  simp only [loadK8sData, hcfg, hcs, hpv]
  generalize namespaceLoop lib clientset clientset.listNamespaces.Items []
    ["PersistentVolumes in the cluster:\n"] = looped at hloop
  obtain ⟨out2, oc⟩ := looped
  simp only at hloop
  subst hloop
  simp [pvLoop_eq]

theorem loadK8sData_returned_inv (lib : Lib Quantity Time) (env : Env Quantity Time)
    (clientset : Clientset Quantity Time) (hconn : Connected env clientset)
    (val : List PV × List PVC × Option String)
    (h : (loadK8sData lib env).outcome = .returned val) : RunSucceeds clientset := by
  obtain ⟨config, hcfg, hcs⟩ := hconn
  simp only [loadK8sData, hcfg, hcs] at h
  cases hpv : clientset.listPersistentVolumes.err with
  | some e => simp [hpv] at h
  | none =>
    simp only [hpv] at h
    generalize hloop : namespaceLoop lib clientset clientset.listNamespaces.Items []
      ["PersistentVolumes in the cluster:\n"] = looped at h
    obtain ⟨out2, oc⟩ := looped
    cases oc with
    | returned l =>
      exact ⟨hpv, namespaceLoop_returned_inv lib clientset _ [] _ l (by rw [hloop])⟩
    | fatal m => simp at h

/-- The run returns a snapshot exactly when `RunSucceeds` holds. -/
theorem loadK8sData_returned_iff (lib : Lib Quantity Time) (env : Env Quantity Time)
    (clientset : Clientset Quantity Time) (hconn : Connected env clientset) :
    (∃ val, (loadK8sData lib env).outcome = .returned val) ↔ RunSucceeds clientset :=
  ⟨fun ⟨val, h⟩ => loadK8sData_returned_inv lib env clientset hconn val h,
   fun h => ⟨_, loadK8sData_returned lib env clientset hconn h⟩⟩

theorem AllListingsSucceed.runSucceeds {clientset : Clientset Quantity Time}
    (h : AllListingsSucceed clientset) : RunSucceeds clientset :=
  ⟨h.1, h.2.2⟩

/-- A failed volume listing is fatal. -/
theorem loadK8sData_volumeListingFatal (lib : Lib Quantity Time) (env : Env Quantity Time)
    (clientset : Clientset Quantity Time) (hconn : Connected env clientset) (e : String)
    (hpv : clientset.listPersistentVolumes.err = some e) :
    loadK8sData lib env = ⟨[], .fatal ("Error fetching PersistentVolumes: " ++ e)⟩ := by
  obtain ⟨config, hcfg, hcs⟩ := hconn
  simp only [loadK8sData, hcfg, hcs, hpv]

/-- A failed claim listing of an enumerated namespace prevents a normal return. -/
theorem loadK8sData_claimListingFatal (lib : Lib Quantity Time) (env : Env Quantity Time)
    (clientset : Clientset Quantity Time) (hconn : Connected env clientset)
    (ns : Namespace Time) (hns : ns ∈ clientset.listNamespaces.Items)
    (hclaims : (clientset.listPersistentVolumeClaims ns.Name).err ≠ none) :
    ∃ msg, (loadK8sData lib env).outcome = .fatal msg := by
  cases hout : (loadK8sData lib env).outcome with
  | fatal msg => exact ⟨msg, rfl⟩
  | returned val =>
    have hrun := loadK8sData_returned_inv lib env clientset hconn val hout
    exact absurd (hrun.2 ns hns).1 hclaims

/-- Whatever error the namespace listing returns, a run whose namespace list
object is empty returns the volumes and no claim. -/
theorem loadK8sData_namespaceErrorIgnored (lib : Lib Quantity Time) (env : Env Quantity Time)
    (clientset : Clientset Quantity Time) (hconn : Connected env clientset)
    (hpv : clientset.listPersistentVolumes.err = none)
    (hns : clientset.listNamespaces.Items = []) :
    loadK8sData lib env
      = ⟨["PersistentVolumes in the cluster:\n"],
         .returned (clientset.listPersistentVolumes.Items.map (volumeRecord lib), [], none)⟩ := by
  obtain ⟨config, hcfg, hcs⟩ := hconn
  simp [loadK8sData, hcfg, hcs, hpv, hns, namespaceLoop, pvLoop_eq]

theorem loadK8sData_podFatal (lib : Lib Quantity Time) (env : Env Quantity Time)
    (clientset : Clientset Quantity Time) (hconn : Connected env clientset)
    (hpv : clientset.listPersistentVolumes.err = none)
    (hclaims : ∀ ns ∈ clientset.listNamespaces.Items,
      (clientset.listPersistentVolumeClaims ns.Name).err = none)
    (hfail : ∃ ns ∈ clientset.listNamespaces.Items, ∃ pvc ∈ claimsOf clientset ns,
      (clientset.listPods pvc.Namespace "kind=pod").err ≠ none) :
    ∃ e, (loadK8sData lib env).outcome
      = .fatal ("Fehler beim Abrufen von Pods für PVC: " ++ e) := by
  obtain ⟨config, hcfg, hcs⟩ := hconn
  obtain ⟨e, he⟩ := namespaceLoop_podFatal lib clientset clientset.listNamespaces.Items []
    ["PersistentVolumes in the cluster:\n"] hclaims hfail
  refine ⟨e, ?_⟩
  simp only [loadK8sData, hcfg, hcs, hpv]
  generalize namespaceLoop lib clientset clientset.listNamespaces.Items []
    ["PersistentVolumes in the cluster:\n"] = looped at he
  obtain ⟨out2, oc⟩ := looped
  simp only at he
  subst he
  rfl

theorem volumesTranscribed_map (lib : Lib Quantity Time)
    (items : List (PersistentVolume Quantity Time)) :
    VolumesTranscribed lib items (items.map (volumeRecord lib)) := by
  refine ⟨by simp, ?_⟩
  intro i hi hj
  simp [volumeRecord]

theorem connectTo_connected (clientset : Clientset SampleQuantity SampleTime) :
    Connected (connectTo clientset) clientset :=
  ⟨⟨"https://cluster.local:6443"⟩, rfl, rfl⟩

theorem mem_claimRecords (lib : Lib Quantity Time) (clientset : Clientset Quantity Time)
    (namespaces : List (Namespace Time)) (record : PVC) :
    record ∈ claimRecords lib clientset namespaces ↔
      ∃ ns ∈ namespaces, ∃ pvc ∈ claimsOf clientset ns, record = claimRecord lib pvc := by
  simp only [claimRecords, List.mem_flatMap, List.mem_map]
  constructor
  · rintro ⟨ns, hns, pvc, hpvc, rfl⟩
    exact ⟨ns, hns, pvc, hpvc, rfl⟩
  · rintro ⟨ns, hns, pvc, hpvc, rfl⟩
    exact ⟨ns, hns, pvc, hpvc, rfl⟩

theorem length_claimRecords (lib : Lib Quantity Time) (clientset : Clientset Quantity Time)
    (namespaces : List (Namespace Time)) :
    (claimRecords lib clientset namespaces).length
      = (namespaces.map (fun ns => (claimsOf clientset ns).length)).sum := by
  induction namespaces with
  | nil => simp [claimRecords]
  | cons ns rest ih =>
    simp only [claimRecords, List.flatMap_cons, List.length_append, List.length_map,
      List.map_cons, List.sum_cons] at ih ⊢
    rw [ih]

end AggregatorLemmas

/-! ## The claims about `loadK8sData` -/

section AggregatorClaims

variable {Quantity Time : Type}

/-- C1: when every listing succeeds, `loadK8sData` returns, and the Volume list
it returns has the length and order of the items of the volume listing; at
every index the record is the transcription of the item: name, UID, labels,
phase, the quantity string of the `storage` capacity, and the creation
timestamp formatted with `2006-01-02/15:04:05`. -/
theorem loadK8sData_volumes_transcribed (lib : Lib Quantity Time) (env : Env Quantity Time)
    (clientset : Clientset Quantity Time) (hconn : Connected env clientset)
    (hall : AllListingsSucceed clientset) :
    ∃ pvList pvcList,
      (loadK8sData lib env).outcome = .returned (pvList, pvcList, none) ∧
      VolumesTranscribed lib clientset.listPersistentVolumes.Items pvList :=
  ⟨_, _, loadK8sData_returned lib env clientset hconn hall.runSucceeds,
    volumesTranscribed_map lib _⟩

/-- Witness for C1 on the scenario of the specification: the listing of `pv-a`
(10Gi) and `pv-b` (5Gi) yields the two records in that order. -/
theorem loadK8sData_volumes_transcribed_witness :
    AllListingsSucceed scenarioCluster ∧
    (∃ pvList pvcList,
      (loadK8sData sampleLib (connectTo scenarioCluster)).outcome
        = .returned (pvList, pvcList, none) ∧
      VolumesTranscribed sampleLib scenarioCluster.listPersistentVolumes.Items pvList) ∧
    (∃ pvcList, (loadK8sData sampleLib (connectTo scenarioCluster)).outcome
      = .returned
          ([⟨"pv-a", "10Gi", "2024-05-06/07:08:09", "uid-a", [("app", "db")], "Bound"⟩,
            ⟨"pv-b", "5Gi", "2024-05-06/07:08:09", "uid-b", [("app", "db")], "Available"⟩],
           pvcList, none)) := by
  have hall : AllListingsSucceed scenarioCluster := by
    simp [AllListingsSucceed, ClaimPhaseSucceeds, PodListingsSucceed, claimsOf,
      scenarioCluster, ListResult.success, sampleNamespace, sampleMeta, sampleClaim]
  exact ⟨hall,
    loadK8sData_volumes_transcribed sampleLib (connectTo scenarioCluster) scenarioCluster
      (connectTo_connected _) hall,
    ⟨_, rfl⟩⟩

/-- C2, evaluated where the code departs from it: the namespace listing is
refused, yet `loadK8sData` returns normally with the two volumes and no claim,
and `main` starts the listener and serves that snapshot. -/
theorem namespace_listing_error_not_fatal :
    namespacesRefused.listNamespaces.err = some "namespaces is forbidden" ∧
    loadK8sData sampleLib (connectTo namespacesRefused)
      = ⟨["PersistentVolumes in the cluster:\n"],
         .returned
          ([⟨"pv-a", "10Gi", "2024-05-06/07:08:09", "uid-a", [("app", "db")], "Bound"⟩,
            ⟨"pv-b", "5Gi", "2024-05-06/07:08:09", "uid-b", [("app", "db")], "Available"⟩],
           [], none)⟩ ∧
    (main sampleLib (connectTo namespacesRefused) none [⟨diskWith pageTemplate, getRoot⟩]).outcome
      = .returned [⟨200, "<h1>Volumes</h1><li>pv-a</li><li>pv-b</li>"⟩] :=
  ⟨rfl, rfl, rfl⟩

/-- C3: in every successful run against a cluster whose claim listings are
scoped to their namespace (the contract of the cluster API), every Claim record
of the returned list transcribes a claim returned by the claim listing of an
enumerated namespace and has that namespace as its Namespace field; and the
record of every claim listed under an enumerated namespace is in the list with
the name of that namespace, so no claim is attributed to another namespace. -/
theorem claim_namespace_is_listing_namespace (lib : Lib Quantity Time)
    (env : Env Quantity Time) (clientset : Clientset Quantity Time)
    (hconn : Connected env clientset) (hrun : RunSucceeds clientset)
    (hscoped : NamespaceScoped clientset) :
    ∃ pvList pvcList,
      (loadK8sData lib env).outcome = .returned (pvList, pvcList, none) ∧
      (∀ record ∈ pvcList, ∃ ns ∈ clientset.listNamespaces.Items,
        ∃ pvc ∈ claimsOf clientset ns,
          record = claimRecord lib pvc ∧ record.Namespace = ns.Name) ∧
      (∀ ns ∈ clientset.listNamespaces.Items, ∀ pvc ∈ claimsOf clientset ns,
        claimRecord lib pvc ∈ pvcList ∧ (claimRecord lib pvc).Namespace = ns.Name) := by
  refine ⟨_, _, loadK8sData_returned lib env clientset hconn hrun, ?_, ?_⟩
  · intro record hrecord
    obtain ⟨ns, hns, pvc, hpvc, rfl⟩ := (mem_claimRecords lib clientset _ record).1 hrecord
    exact ⟨ns, hns, pvc, hpvc, rfl, hscoped ns hns pvc hpvc⟩
  · intro ns hns pvc hpvc
    exact ⟨(mem_claimRecords lib clientset _ _).2 ⟨ns, hns, pvc, hpvc, rfl⟩,
      hscoped ns hns pvc hpvc⟩

/-- Witness for C3 on the scenario of the specification: the record of
`claim-x`, listed under `ns1`, carries the namespace `ns1`. -/
theorem claim_namespace_is_listing_namespace_witness :
    RunSucceeds scenarioCluster ∧ NamespaceScoped scenarioCluster ∧
    (∃ pvList pvcList,
      (loadK8sData sampleLib (connectTo scenarioCluster)).outcome
        = .returned (pvList, pvcList, none) ∧
      (∀ record ∈ pvcList, ∃ ns ∈ scenarioCluster.listNamespaces.Items,
        ∃ pvc ∈ claimsOf scenarioCluster ns,
          record = claimRecord sampleLib pvc ∧ record.Namespace = ns.Name) ∧
      (∀ ns ∈ scenarioCluster.listNamespaces.Items, ∀ pvc ∈ claimsOf scenarioCluster ns,
        claimRecord sampleLib pvc ∈ pvcList ∧
          (claimRecord sampleLib pvc).Namespace = ns.Name)) ∧
    (∃ pvList, (loadK8sData sampleLib (connectTo scenarioCluster)).outcome
      = .returned (pvList,
          [⟨"claim-x", "ns1", "2024-05-06/07:08:09", "uid-x", [("app", "db")], "Bound",
            "pv-a"⟩], none)) := by
  have hrun : RunSucceeds scenarioCluster := by
    simp [RunSucceeds, ClaimPhaseSucceeds, PodListingsSucceed, claimsOf,
      scenarioCluster, ListResult.success, sampleNamespace, sampleMeta, sampleClaim]
  have hscoped : NamespaceScoped scenarioCluster := by
    simp [NamespaceScoped, claimsOf, scenarioCluster, ListResult.success, sampleNamespace,
      sampleMeta, sampleClaim]
  exact ⟨hrun, hscoped,
    claim_namespace_is_listing_namespace sampleLib (connectTo scenarioCluster) scenarioCluster
      (connectTo_connected _) hrun hscoped,
    ⟨_, rfl⟩⟩

/-- C4: in every successful run, a claim returned by the claim listing of an
enumerated namespace whose bound-volume name is empty, or is the name of no
Volume of the returned Volume list, still has its record in the returned Claim
list, with `PVUUID` equal to the `spec.volumeName` of the claim as given. -/
theorem unresolved_claim_kept (lib : Lib Quantity Time) (env : Env Quantity Time)
    (clientset : Clientset Quantity Time) (hconn : Connected env clientset)
    (hrun : RunSucceeds clientset) :
    ∃ pvList pvcList,
      (loadK8sData lib env).outcome = .returned (pvList, pvcList, none) ∧
      ∀ ns ∈ clientset.listNamespaces.Items, ∀ pvc ∈ claimsOf clientset ns,
        (pvc.Spec.VolumeName = "" ∨ ∀ pv ∈ pvList, pv.Name ≠ pvc.Spec.VolumeName) →
        ∃ record ∈ pvcList, record = claimRecord lib pvc ∧ record.Name = pvc.Name ∧
          record.UUID = pvc.UID ∧ record.PVUUID = pvc.Spec.VolumeName := by
  refine ⟨_, _, loadK8sData_returned lib env clientset hconn hrun, ?_⟩
  intro ns hns pvc hpvc _
  exact ⟨claimRecord lib pvc,
    (mem_claimRecords lib clientset _ _).2 ⟨ns, hns, pvc, hpvc, rfl⟩, rfl, rfl, rfl, rfl⟩

/-- Witness for C4: `claim-y` is bound to the absent volume `pv-gone` and
`claim-z` is unbound; the run returns and both records are in the Claim list
with the reference as given. -/
theorem unresolved_claim_kept_witness :
    RunSucceeds danglingCluster ∧
    (∃ pvList pvcList,
      (loadK8sData sampleLib (connectTo danglingCluster)).outcome
        = .returned (pvList, pvcList, none) ∧
      ∀ ns ∈ danglingCluster.listNamespaces.Items, ∀ pvc ∈ claimsOf danglingCluster ns,
        (pvc.Spec.VolumeName = "" ∨ ∀ pv ∈ pvList, pv.Name ≠ pvc.Spec.VolumeName) →
        ∃ record ∈ pvcList, record = claimRecord sampleLib pvc ∧ record.Name = pvc.Name ∧
          record.UUID = pvc.UID ∧ record.PVUUID = pvc.Spec.VolumeName) ∧
    (loadK8sData sampleLib (connectTo danglingCluster)).outcome
      = .returned
          ([⟨"pv-a", "10Gi", "2024-05-06/07:08:09", "uid-a", [("app", "db")], "Available"⟩],
           [⟨"claim-y", "ns1", "2024-05-06/07:08:09", "uid-y", [("app", "db")], "Lost",
              "pv-gone"⟩,
            ⟨"claim-z", "ns1", "2024-05-06/07:08:09", "uid-z", [("app", "db")], "Pending",
              ""⟩],
           none) := by
  have hrun : RunSucceeds danglingCluster := by
    simp [RunSucceeds, ClaimPhaseSucceeds, PodListingsSucceed, claimsOf,
      danglingCluster, ListResult.success, sampleNamespace, sampleMeta, sampleClaim]
  exact ⟨hrun,
    unresolved_claim_kept sampleLib (connectTo danglingCluster) danglingCluster
      (connectTo_connected _) hrun,
    rfl⟩

/-- C6: with the volume, namespace and claim listings successful, a failing
pod listing issued for some claim makes `loadK8sData` end in `log.Fatalf` with
the pod message, so no snapshot is returned; and when the claim listings are
all empty the run returns the snapshot whatever the pod API answers. -/
theorem pod_listing_failure_fatal (lib : Lib Quantity Time) (env : Env Quantity Time)
    (clientset : Clientset Quantity Time) (hconn : Connected env clientset)
    (hpv : clientset.listPersistentVolumes.err = none)
    (hns : clientset.listNamespaces.err = none)
    (hclaims : ∀ ns ∈ clientset.listNamespaces.Items,
      (clientset.listPersistentVolumeClaims ns.Name).err = none) :
    ((∃ ns ∈ clientset.listNamespaces.Items, ∃ pvc ∈ claimsOf clientset ns,
        (clientset.listPods pvc.Namespace "kind=pod").err ≠ none) →
      ∃ e, (loadK8sData lib env).outcome
        = .fatal ("Fehler beim Abrufen von Pods für PVC: " ++ e)) ∧
    ((∀ ns ∈ clientset.listNamespaces.Items, claimsOf clientset ns = []) →
      (loadK8sData lib env).outcome
        = .returned (clientset.listPersistentVolumes.Items.map (volumeRecord lib), [], none)) := by
  constructor
  · exact loadK8sData_podFatal lib env clientset hconn hpv hclaims
  · intro hempty
    have hrun : RunSucceeds clientset :=
      ⟨hpv, fun ns h => ⟨hclaims ns h, by intro p hp; simp [hempty ns h] at hp⟩⟩
    have hnone : claimRecords lib clientset clientset.listNamespaces.Items = [] := by
      apply List.eq_nil_iff_forall_not_mem.2
      intro record hrecord
      obtain ⟨ns, h, pvc, hpvc, _⟩ := (mem_claimRecords lib clientset _ record).1 hrecord
      simp [hempty ns h] at hpvc
    rw [← hnone]
    exact loadK8sData_returned lib env clientset hconn hrun

/-- Witness for C6: with the pod API refusing every listing, the scenario
cluster (one claim) ends fatally, and the cluster without claims returns its
volumes. -/
theorem pod_listing_failure_fatal_witness :
    (∃ e, (loadK8sData sampleLib (connectTo podsRefused)).outcome
      = .fatal ("Fehler beim Abrufen von Pods für PVC: " ++ e)) ∧
    (loadK8sData sampleLib (connectTo podsRefused)).outcome
      = .fatal "Fehler beim Abrufen von Pods für PVC: pods is forbidden" ∧
    (loadK8sData sampleLib (connectTo noClaimsPodsRefused)).outcome
      = .returned (noClaimsPodsRefused.listPersistentVolumes.Items.map (volumeRecord sampleLib),
          [], none) ∧
    (∀ ns selector, (noClaimsPodsRefused.listPods ns selector).err ≠ none) := by
  refine ⟨?_, rfl, ?_, ?_⟩
  · refine (pod_listing_failure_fatal sampleLib (connectTo podsRefused) podsRefused
      (connectTo_connected _) rfl rfl ?_).1 ?_
    · intro ns _
      by_cases h : ns.Name = "ns1" <;>
        simp [podsRefused, scenarioCluster, ListResult.success, h]
    · refine ⟨sampleNamespace "ns1", ?_, sampleClaim "claim-x" "ns1" "uid-x" "pv-a" "Bound",
        ?_, ?_⟩
      · simp [podsRefused, scenarioCluster, ListResult.success]
      · simp [claimsOf, podsRefused, scenarioCluster, ListResult.success, sampleNamespace,
          sampleMeta]
      · simp [podsRefused, ListResult.failure]
  · refine (pod_listing_failure_fatal sampleLib (connectTo noClaimsPodsRefused)
      noClaimsPodsRefused (connectTo_connected _) rfl rfl ?_).2 ?_
    · intro ns _
      rfl
    · intro ns _
      rfl
  · intro ns selector
    simp [noClaimsPodsRefused, ListResult.failure]

/-- C10: in every successful run the returned Claim list is the concatenation,
over the enumerated namespaces in listing order, of the transcribed items of
the claim listing of each namespace in listing order; its length is the sum of the
lengths of the per-namespace listings. -/
theorem claims_concatenated (lib : Lib Quantity Time) (env : Env Quantity Time)
    (clientset : Clientset Quantity Time) (hconn : Connected env clientset)
    (hrun : RunSucceeds clientset) :
    (∃ pvList, (loadK8sData lib env).outcome
      = .returned (pvList,
          (clientset.listNamespaces.Items.map
            (fun ns => (claimsOf clientset ns).map (claimRecord lib))).flatten,
          none)) ∧
    (clientset.listNamespaces.Items.map
        (fun ns => (claimsOf clientset ns).map (claimRecord lib))).flatten.length
      = (clientset.listNamespaces.Items.map (fun ns => (claimsOf clientset ns).length)).sum := by
  have hlen := length_claimRecords lib clientset clientset.listNamespaces.Items
  have hret := loadK8sData_returned lib env clientset hconn hrun
  simp only [claimRecords, List.flatMap] at hlen hret
  exact ⟨⟨_, hret⟩, hlen⟩

/-- Witness for C10 on the scenario of the specification: namespace `ns1` with
the claim `claim-x` bound to `pv-a` yields exactly that one record. -/
theorem claims_concatenated_witness :
    RunSucceeds scenarioCluster ∧
    ((∃ pvList, (loadK8sData sampleLib (connectTo scenarioCluster)).outcome
      = .returned (pvList,
          (scenarioCluster.listNamespaces.Items.map
            (fun ns => (claimsOf scenarioCluster ns).map (claimRecord sampleLib))).flatten,
          none)) ∧
    (scenarioCluster.listNamespaces.Items.map
        (fun ns => (claimsOf scenarioCluster ns).map (claimRecord sampleLib))).flatten.length
      = (scenarioCluster.listNamespaces.Items.map
          (fun ns => (claimsOf scenarioCluster ns).length)).sum) ∧
    (scenarioCluster.listNamespaces.Items.map
        (fun ns => (claimsOf scenarioCluster ns).map (claimRecord sampleLib))).flatten
      = [⟨"claim-x", "ns1", "2024-05-06/07:08:09", "uid-x", [("app", "db")], "Bound",
          "pv-a"⟩] := by
  have hrun : RunSucceeds scenarioCluster := by
    simp [RunSucceeds, ClaimPhaseSucceeds, PodListingsSucceed, claimsOf,
      scenarioCluster, ListResult.success, sampleNamespace, sampleMeta, sampleClaim]
  exact ⟨hrun,
    claims_concatenated sampleLib (connectTo scenarioCluster) scenarioCluster
      (connectTo_connected _) hrun,
    rfl⟩

end AggregatorClaims

/-! ## Lemmas on the response writer and the handler -/

theorem Write_of_wroteHeader (w : ResponseWriter) (x : String) (h : w.wroteHeader = true) :
    w.Write x
      = { w with body := if w.req.Method = "HEAD" then w.body else w.body ++ x } := by
  obtain ⟨req, wrote, status, body⟩ := w
  simp only at h
  subst h
  by_cases hhead : req.Method = "HEAD" <;> simp [ResponseWriter.Write, hhead]

theorem foldl_Write_of_wroteHeader (ws : List String) (w : ResponseWriter)
    (h : w.wroteHeader = true) :
    ws.foldl ResponseWriter.Write w
      = { w with body := if w.req.Method = "HEAD" then w.body
                         else ws.foldl (fun r s => r ++ s) w.body } := by
  induction ws generalizing w with
  | nil => simp
  | cons x xs ih =>
    simp only [List.foldl_cons, Write_of_wroteHeader w x h]
    rw [ih { w with body := if w.req.Method = "HEAD" then w.body else w.body ++ x } h]
    by_cases hhead : w.req.Method = "HEAD" <;> simp [hhead]

theorem Write_fresh (r : Request) (x : String) :
    (ResponseWriter.fresh r).Write x = ⟨r, true, 200, bodyFor r ("" ++ x)⟩ := by
  by_cases hhead : r.Method = "HEAD" <;>
    simp [ResponseWriter.Write, ResponseWriter.WriteHeader, ResponseWriter.fresh, bodyFor, hhead]

/-- The writer after a handler wrote at least once, and nothing else. -/
theorem foldl_Write_fresh_cons (r : Request) (x : String) (xs : List String) :
    (x :: xs).foldl ResponseWriter.Write (ResponseWriter.fresh r)
      = ⟨r, true, 200, bodyFor r (String.join (x :: xs))⟩ := by
  simp only [List.foldl_cons, Write_fresh]
  rw [foldl_Write_of_wroteHeader xs _ rfl]
  by_cases hhead : r.Method = "HEAD" <;> simp [bodyFor, hhead, String.join]

/-- A handler that only writes: the client receives status 200 and, unless the
request is a `HEAD`, the concatenation of what was written. -/
theorem finishRequest_foldl_Write (r : Request) (ws : List String) :
    finishRequest (ws.foldl ResponseWriter.Write (ResponseWriter.fresh r))
      = ⟨200, bodyFor r (String.join ws)⟩ := by
  cases ws with
  | nil =>
    by_cases hhead : r.Method = "HEAD" <;>
      simp [finishRequest, ResponseWriter.WriteHeader, ResponseWriter.fresh, bodyFor, hhead,
        String.join]
  | cons x xs => rw [foldl_Write_fresh_cons]; rfl

/-- Function `http.Error` on a writer whose header is not yet written. -/
theorem finishRequest_httpError_fresh (r : Request) (msg : String) (code : Nat) :
    finishRequest (httpError (ResponseWriter.fresh r) msg code)
      = ⟨code, bodyFor r (msg ++ "\n")⟩ := by
  by_cases hhead : r.Method = "HEAD" <;>
    simp [finishRequest, httpError, ResponseWriter.Write, ResponseWriter.WriteHeader,
      ResponseWriter.fresh, bodyFor, hhead]

/-- Function `http.Error` after the header is written: the status stays, the
message is appended to the body (unless the request is a `HEAD`). -/
theorem httpError_of_wroteHeader (w : ResponseWriter) (h : w.wroteHeader = true)
    (msg : String) (code : Nat) :
    httpError w msg code
      = { w with body := if w.req.Method = "HEAD" then w.body
                         else w.body ++ (msg ++ "\n") } := by
  have hheader : w.WriteHeader code = w := by simp [ResponseWriter.WriteHeader, h]
  simp only [httpError, hheader]
  exact Write_of_wroteHeader w _ h

/-- The response to any request dispatched to `homeHandler`: the status of
`pageResponse`, and its body unless the request is a `HEAD`. -/
theorem serveRequest_homeHandler (data : DashboardData) (a : Arrival) :
    serveRequest (homeHandler data) a
      = ⟨(pageResponse data a.parseFiles).status,
         bodyFor a.request (pageResponse data a.parseFiles).body⟩ := by
  simp only [serveRequest, homeHandler, pageResponse]
  cases hparse : a.parseFiles "./templates/index.html" with
  | error e => exact finishRequest_httpError_fresh _ _ _
  | ok tmpl =>
    simp only [Template.Execute]
    cases herr : (tmpl data).err with
    | none => exact finishRequest_foldl_Write _ _
    | some e =>
      cases hw : (tmpl data).written with
      | nil => exact finishRequest_httpError_fresh _ _ _
      | cons x xs =>
        simp only [foldl_Write_fresh_cons]
        rw [httpError_of_wroteHeader _ rfl]
        by_cases hhead : a.request.Method = "HEAD" <;>
          simp [finishRequest, bodyFor, hhead]

theorem serve_eq_map (handler : (String → Except String Template) → ResponseWriter → Request →
    ResponseWriter × List String) (arrivals : List Arrival) :
    serve handler arrivals = arrivals.map (serveRequest handler) := by
  induction arrivals with
  | nil => rfl
  | cons a rest ih => simp [serve, ih]

theorem serve_get?_middle (handler : (String → Except String Template) → ResponseWriter →
    Request → ResponseWriter × List String) (earlier later : List Arrival) (a : Arrival) :
    (serve handler (earlier ++ a :: later)).get? earlier.length
      = some (serveRequest handler a) := by
  induction earlier with
  | nil => simp [serve]
  | cons b rest ih => simpa [serve] using ih

theorem pageResponse_loadFailure (data : DashboardData)
    (parseFiles : String → Except String Template) (e : String)
    (h : parseFiles "./templates/index.html" = .error e) :
    pageResponse data parseFiles = ⟨500, "Error loading template\n"⟩ := by
  simp [pageResponse, h]

theorem pageResponse_rendered (data : DashboardData)
    (parseFiles : String → Except String Template) (tmpl : Template)
    (h : parseFiles "./templates/index.html" = .ok tmpl) (hok : (tmpl data).err = none) :
    pageResponse data parseFiles = ⟨200, String.join (tmpl data).written⟩ := by
  simp [pageResponse, h, hok]

/-! ## The claims about `homeHandler` -/

/-- C7, evaluated where the code departs from it: the template writes its
heading and then fails; the client receives status 200 and the heading followed
by the error message, not status 500. -/
theorem render_failure_after_output_not_500 :
    (headingThenMissingField sampleData).err
      = some "cannot evaluate field Missing in type main.DashboardData" ∧
    homeHandler sampleData (diskWith headingThenMissingField) (ResponseWriter.fresh getRoot)
        getRoot
      = (⟨getRoot, true, 200, "<h1>Volumes</h1>Error rendering the template\n"⟩,
         ["Render error: cannot evaluate field Missing in type main.DashboardData\n"]) ∧
    finishRequest
        (homeHandler sampleData (diskWith headingThenMissingField) (ResponseWriter.fresh getRoot)
          getRoot).1
      = ⟨200, "<h1>Volumes</h1>Error rendering the template\n"⟩ :=
  ⟨rfl, rfl, rfl⟩

/-- C8 as stated fails: with the template file deleted the response to `GET /`
has status 500, and its body is the message followed by a newline, which is not
the body `Error loading template`. -/
theorem template_load_failure_body_not_bare_message :
    serveRequest (homeHandler sampleData) ⟨diskWithout, getRoot⟩
      = ⟨500, "Error loading template\n"⟩ ∧
    (serveRequest (homeHandler sampleData) ⟨diskWithout, getRoot⟩).body
      ≠ "Error loading template" := by
  constructor
  · rfl
  · decide

/-- C8, amended: whatever requests came before, a request that arrives when the
template file cannot be loaded or parsed is answered with status 500 and, the
same for every snapshot, the body `Error loading template` followed by a
newline, or no body when the request is a `HEAD`; and a request that arrives
when the file loads and renders without error is answered with status 200 and
the rendered page, or no body when the request is a `HEAD`. -/
theorem template_load_failure_per_request (data : DashboardData)
    (earlier later : List Arrival) (a : Arrival) :
    (∀ e, a.parseFiles "./templates/index.html" = .error e →
      (serve (homeHandler data) (earlier ++ a :: later)).get? earlier.length
        = some ⟨500, if a.request.Method = "HEAD" then "" else "Error loading template\n"⟩) ∧
    (∀ tmpl, a.parseFiles "./templates/index.html" = .ok tmpl → (tmpl data).err = none →
      (serve (homeHandler data) (earlier ++ a :: later)).get? earlier.length
        = some ⟨200, if a.request.Method = "HEAD" then ""
                     else String.join (tmpl data).written⟩) := by
  constructor
  · intro e he
    rw [serve_get?_middle, serveRequest_homeHandler, pageResponse_loadFailure data _ e he]
    rfl
  · intro tmpl htmpl hok
    rw [serve_get?_middle, serveRequest_homeHandler,
      pageResponse_rendered data _ tmpl htmpl hok]
    rfl

/-- Witness for the amended C8: the file is deleted and a `GET` fails with 500
and the message line, a `HEAD` with 500 and no body; the file is restored and
the next `GET` gets status 200 and the page. -/
theorem template_load_failure_per_request_witness :
    (serve (homeHandler sampleData)
        ([] ++ (⟨diskWithout, getRoot⟩ : Arrival) :: [⟨diskWith pageTemplate, getRoot⟩])).get?
          ([] : List Arrival).length
      = some ⟨500, if getRoot.Method = "HEAD" then "" else "Error loading template\n"⟩ ∧
    (serve (homeHandler sampleData)
        ([(⟨diskWithout, getRoot⟩ : Arrival)] ++ ⟨diskWith pageTemplate, getRoot⟩ :: [])).get?
          [(⟨diskWithout, getRoot⟩ : Arrival)].length
      = some ⟨200, if getRoot.Method = "HEAD" then ""
                   else String.join (pageTemplate sampleData).written⟩ ∧
    serve (homeHandler sampleData)
        [⟨diskWithout, getRoot⟩, ⟨diskWithout, headRoot⟩, ⟨diskWith pageTemplate, getRoot⟩]
      = [⟨500, "Error loading template\n"⟩, ⟨500, ""⟩,
         ⟨200, "<h1>Volumes</h1><li>pv-a</li><li>claim-x</li>"⟩] :=
  ⟨(template_load_failure_per_request sampleData [] [⟨diskWith pageTemplate, getRoot⟩]
      ⟨diskWithout, getRoot⟩).1 _ rfl,
   (template_load_failure_per_request sampleData [⟨diskWithout, getRoot⟩] []
      ⟨diskWith pageTemplate, getRoot⟩).2 pageTemplate rfl rfl,
   by decide⟩

/-- C9 as stated fails: for one snapshot and one template file, `GET /` is
answered with the page and `HEAD /` with the same status and an empty body, so
the response is not the same for any two requests whatever their method. -/
theorem head_response_differs_from_get :
    serveRequest (homeHandler sampleData) ⟨diskWith pageTemplate, getRoot⟩
      = ⟨200, "<h1>Volumes</h1><li>pv-a</li><li>claim-x</li>"⟩ ∧
    serveRequest (homeHandler sampleData) ⟨diskWith pageTemplate, headRoot⟩ = ⟨200, ""⟩ ∧
    serveRequest (homeHandler sampleData) ⟨diskWith pageTemplate, getRoot⟩
      ≠ serveRequest (homeHandler sampleData) ⟨diskWith pageTemplate, headRoot⟩ := by
  refine ⟨by decide, by decide, by decide⟩

/-- C9, amended: for a fixed snapshot and a fixed content of the template file,
the handler makes the same calls whatever the request (on equal writers it
leaves equal writers and logs); the status of the response is the same for any
two requests; the whole response is the same for any two requests that are both
`HEAD` or both not `HEAD`, whatever their path, query, headers or body; the
response to a `HEAD` has an empty body; and in any sequence of requests that
agree with a given one on being `HEAD`, every response is the response to that
one, the snapshot being the same for all of them. -/
theorem response_depends_on_head_only (data : DashboardData)
    (parseFiles : String → Except String Template) (w : ResponseWriter)
    (r₁ r₂ : Request) (requests : List Request) :
    homeHandler data parseFiles w r₁ = homeHandler data parseFiles w r₂ ∧
    (serveRequest (homeHandler data) ⟨parseFiles, r₁⟩).status
      = (serveRequest (homeHandler data) ⟨parseFiles, r₂⟩).status ∧
    ((r₁.Method = "HEAD" ↔ r₂.Method = "HEAD") →
      serveRequest (homeHandler data) ⟨parseFiles, r₁⟩
        = serveRequest (homeHandler data) ⟨parseFiles, r₂⟩) ∧
    (r₁.Method = "HEAD" → (serveRequest (homeHandler data) ⟨parseFiles, r₁⟩).body = "") ∧
    ((∀ r ∈ requests, r.Method = "HEAD" ↔ r₁.Method = "HEAD") →
      serve (homeHandler data) (requests.map (fun r => ⟨parseFiles, r⟩))
        = List.replicate requests.length
            (serveRequest (homeHandler data) ⟨parseFiles, r₁⟩)) := by
  have hsame : ∀ r : Request, (r.Method = "HEAD" ↔ r₁.Method = "HEAD") →
      serveRequest (homeHandler data) ⟨parseFiles, r⟩
        = serveRequest (homeHandler data) ⟨parseFiles, r₁⟩ := by
    intro r hr
    simp only [serveRequest_homeHandler, bodyFor]
    by_cases h₁ : r₁.Method = "HEAD"
    · simp [h₁, hr.2 h₁]
    · have h : ¬ r.Method = "HEAD" := fun h => h₁ (hr.1 h)
      simp [h₁, h]
  refine ⟨rfl, ?_, ?_, ?_, ?_⟩
  · simp only [serveRequest_homeHandler]
  · intro h
    exact (hsame r₂ h.symm).symm
  · intro h
    simp [serveRequest_homeHandler, bodyFor, h]
  · intro hall
    induction requests with
    | nil => rfl
    | cons r rest ih =>
      simp only [List.map_cons, serve, List.length_cons, List.replicate_succ]
      rw [ih (fun q hq => hall q (List.mem_cons_of_mem _ hq)),
        hsame r (hall r (List.mem_cons_self _ _))]

/-- Witness for the amended C9: a `GET /` and a `POST` with another path, query,
headers and body get the same response; a `HEAD` gets an empty body; and a
sequence of three requests that are not `HEAD` gets three equal responses. -/
theorem response_depends_on_head_only_witness :
    serveRequest (homeHandler sampleData) ⟨diskWith pageTemplate, getRoot⟩
      = serveRequest (homeHandler sampleData) ⟨diskWith pageTemplate, postElsewhere⟩ ∧
    (serveRequest (homeHandler sampleData) ⟨diskWith pageTemplate, headRoot⟩).body = "" ∧
    serve (homeHandler sampleData)
        ([getRoot, postElsewhere, getRoot].map (fun r => ⟨diskWith pageTemplate, r⟩))
      = List.replicate [getRoot, postElsewhere, getRoot].length
          (serveRequest (homeHandler sampleData) ⟨diskWith pageTemplate, getRoot⟩) ∧
    serveRequest (homeHandler sampleData) ⟨diskWith pageTemplate, getRoot⟩
      = ⟨200, "<h1>Volumes</h1><li>pv-a</li><li>claim-x</li>"⟩ :=
  ⟨(response_depends_on_head_only sampleData (diskWith pageTemplate)
      (ResponseWriter.fresh getRoot) getRoot postElsewhere []).2.2.1 (by decide),
   (response_depends_on_head_only sampleData (diskWith pageTemplate)
      (ResponseWriter.fresh headRoot) headRoot getRoot []).2.2.2.1 rfl,
   (response_depends_on_head_only sampleData (diskWith pageTemplate)
      (ResponseWriter.fresh getRoot) getRoot getRoot [getRoot, postElsewhere, getRoot]).2.2.2.2
      (by decide),
   by decide⟩

end K8sPvDashboard
